import Mathlib

/-!
Verification of the Booking & Payment Reconciliation Engine with Conversation
Threading of the Real-Estate-Booking-System backend (`backend/server.py`,
`backend/database.py`).

The SQLAlchemy rows are modelled as Lean structures, the database as lists of
rows, and each FastAPI handler as a pure function from the database (plus the
request parameters and the responses of the external collaborators: Stripe and
the system clock) to the new database and an `Except` result.  Opaque string
primary keys are modelled as naturals; status columns, roles and message bodies
stay strings, exactly as the code compares them.  A handler that raises
`HTTPException` before its `db.commit()` leaves the store untouched, so each
operation returns the database it has at the moment it returns or raises.
-/

/-- HTTPException as raised by the handlers: an HTTP status code and a detail
string (`raise HTTPException(status_code=..., detail=...)`). -/
structure HTTPError where
  code : Nat
  detail : String
deriving DecidableEq, Repr

/-- Booking row (`database.py`, `class Booking`): one requested viewing.
`user_id` is the requester, `owner_id` the property owner denormalized at
creation.  `booking_date`/`created_at` timestamps are modelled as naturals. -/
structure Booking where
  id : Nat
  property_id : Nat
  user_id : Nat
  owner_id : Nat
  booking_date : Nat
  time_slot : String
  status : String
  payment_status : String
  deposit_amount : Nat
  created_at : Nat
deriving DecidableEq, Repr

/-- PaymentTransaction row (`database.py`, `class PaymentTransaction`): one
checkout attempt.  `session_id` is the Stripe checkout-session id.  The JSON
`extra_metadata` blob carries no logic and is omitted. -/
structure PaymentTransaction where
  id : Nat
  session_id : Nat
  booking_id : Nat
  user_id : Nat
  amount : Nat
  currency : String
  status : String
  payment_status : String
  created_at : Nat
deriving DecidableEq, Repr

/-- Conversation row (`database.py`, `class Conversation`): `participants` is a
JSON list of user ids, `property_id` is nullable (`Option`). -/
structure Conversation where
  id : Nat
  participants : List Nat
  property_id : Option Nat
  last_message : String
  last_message_at : Nat
  created_at : Nat
deriving DecidableEq, Repr

/-- Message row (`database.py`, `class Message`). -/
structure Message where
  id : Nat
  conversation_id : Nat
  sender_id : Nat
  receiver_id : Nat
  message : String
  attachment_url : Option String
  read : Bool
  created_at : Nat
deriving DecidableEq, Repr

/-- Property row (`database.py`, `class Property`), reduced to the fields the
booking endpoints read (`id` for lookup, `owner_id` denormalized onto new
bookings). -/
structure Property where
  id : Nat
  owner_id : Nat
deriving DecidableEq, Repr

/-- The persistent store: the four tables of the core plus the properties
table read by `create_booking`. -/
structure DB where
  properties : List Property
  bookings : List Booking
  transactions : List PaymentTransaction
  conversations : List Conversation
  messages : List Message
deriving DecidableEq, Repr

/-- Request body of POST /api/messages (`class MessageCreate` in
`server.py`). -/
structure MessageCreate where
  receiver_id : Nat
  property_id : Option Nat
  message : String
  attachment_url : Option String
deriving DecidableEq, Repr

/-- The checkout session returned by `stripe.checkout.Session.create` during
`create_checkout` (external collaborator response: id and redirect url). -/
structure CheckoutSession where
  id : Nat
  url : String
deriving DecidableEq, Repr

/-- The session object returned by `stripe.checkout.Session.retrieve` during
`get_payment_status`: the provider's current truth for the session. -/
structure StripeSession where
  id : Nat
  payment_status : String
  status : String
deriving DecidableEq, Repr

/-- Outcome of `stripe.Webhook.construct_event(body, signature, secret)`:
either a verified event (its type string and, for checkout events, the session
id of `event.data.object`), or the `ValueError` raised on a malformed payload,
or the `SignatureVerificationError` raised when the signature header does not
match the shared secret. -/
inductive WebhookEvent where
  | parsed (event_type : String) (session_id : Nat)
  | invalidPayload
  | invalidSignature
deriving DecidableEq, Repr

/-- PUT /api/bookings/\x7bbooking_id\x7d/status (`update_booking_status` in
`server.py`): look the booking up, check owner-or-admin authorization, check
the requested status string is one of confirmed/rejected/cancelled, and write
it.  The handler never reads the booking's current status. -/
def update_booking_status (db : DB) (booking_id : Nat) (status : String)
    (user_id : Nat) (user_role : String) : DB × Except HTTPError String :=
  match db.bookings.find? (fun b => b.id == booking_id) with
  | none => (db, .error ⟨404, "Booking not found"⟩)
  | some booking =>
    if booking.owner_id != user_id && user_role != "admin" then
      (db, .error ⟨403, "Not authorized"⟩)
    else if !(["confirmed", "rejected", "cancelled"].contains status) then
      (db, .error ⟨400, "Invalid status"⟩)
    else
      ({ db with bookings := db.bookings.map (fun b =>
          if b.id == booking.id then { b with status := status } else b) },
       .ok ("Booking " ++ status))

/-- POST /api/bookings (`create_booking` in `server.py`): resolve the
property, then insert a pending booking with `owner_id` copied from it. -/
def create_booking (db : DB) (property_id : Nat) (booking_date : Nat)
    (time_slot : String) (deposit_amount : Nat) (user_id : Nat)
    (booking_id : Nat) (now : Nat) : DB × Except HTTPError Nat :=
  match db.properties.find? (fun p => p.id == property_id) with
  | none => (db, .error ⟨404, "Property not found"⟩)
  | some prop =>
    let new_booking : Booking :=
      { id := booking_id, property_id := property_id, user_id := user_id,
        owner_id := prop.owner_id, booking_date := booking_date,
        time_slot := time_slot, status := "pending",
        payment_status := "pending", deposit_amount := deposit_amount,
        created_at := now }
    ({ db with bookings := db.bookings ++ [new_booking] }, .ok booking_id)

/-- POST /api/payments/create-checkout (`create_checkout` in `server.py`):
after the missing-field, booking-lookup, requester and api-key checks it asks
Stripe for a session (`checkout_session` is the provider's reply) and inserts
a new pending PaymentTransaction.  The handler never reads the booking's
`payment_status`. -/
def create_checkout (db : DB) (booking_id : Option Nat)
    (origin_url : Option String) (user_id : Nat) (api_key : Bool)
    (checkout_session : CheckoutSession) (txn_id : Nat) (now : Nat) :
    DB × Except HTTPError (String × Nat) :=
  match booking_id, origin_url with
  | some bid, some _origin =>
    (match db.bookings.find? (fun b => b.id == bid) with
     | none => (db, .error ⟨404, "Booking not found"⟩)
     | some booking =>
       if booking.user_id != user_id then
         (db, .error ⟨403, "Not authorized"⟩)
       else if !api_key then
         (db, .error ⟨500, "Stripe not configured"⟩)
       else
         let new_transaction : PaymentTransaction :=
           { id := txn_id, session_id := checkout_session.id,
             booking_id := bid, user_id := user_id,
             amount := booking.deposit_amount, currency := "usd",
             status := "pending", payment_status := "pending",
             created_at := now }
         ({ db with transactions := db.transactions ++ [new_transaction] },
          .ok (checkout_session.url, checkout_session.id)))
  | _, _ => (db, .error ⟨400, "Missing required fields"⟩)

/-- The transaction-and-booking update block shared verbatim by
`get_payment_status` (lines 1247-1254) and `stripe_webhook` (lines 1292-1299):
set `payment_status=paid, status=completed` on the transaction object `t`,
then look up its booking and, when present, set `payment_status=paid` there. -/
def applyPaid (db : DB) (t : PaymentTransaction) : DB :=
  let db1 : DB := { db with transactions := db.transactions.map (fun x =>
      if x.id == t.id then
        { x with payment_status := "paid", status := "completed" }
      else x) }
  match db1.bookings.find? (fun b => b.id == t.booking_id) with
  | none => db1
  | some booking =>
    { db1 with bookings := db1.bookings.map (fun b =>
        if b.id == booking.id then { b with payment_status := "paid" } else b) }

/-- GET /api/payments/status/\x7bsession_id\x7d (`get_payment_status` in
`server.py`), the poll path: retrieve the session from Stripe
(`checkout_session` is the provider's reply), and if a local transaction for
it exists, compute `payment_status = paid if provider says paid else pending`
and apply the paid update only under the guard
`transaction.payment_status != 'paid' and payment_status == 'paid'`.  The
response echoes the provider's session fields. -/
def get_payment_status (db : DB) (session_id : Nat) (api_key : Bool)
    (checkout_session : StripeSession) : DB × Except HTTPError StripeSession :=
  if !api_key then (db, .error ⟨500, "Stripe not configured"⟩)
  else
    let db' : DB :=
      match db.transactions.find? (fun t => t.session_id == session_id) with
      | none => db
      | some transaction =>
        let payment_status : String :=
          if checkout_session.payment_status == "paid" then "paid"
          else "pending"
        if transaction.payment_status != "paid" && payment_status == "paid"
        then applyPaid db transaction
        else db
    (db', .ok checkout_session)

/-- POST /api/webhook/stripe (`stripe_webhook` in `server.py`): when the
secret is unset the handler replies received=false untouched; otherwise
`construct_event` either raises (modelled by the error constructors of
`WebhookEvent`, turned into the 400 responses of the two `except` arms) or
yields a verified event; for a `checkout.session.completed` event the handler
applies the paid update to the session's transaction unconditionally — there
is no guard on the stored payment_status on this path. -/
def stripe_webhook (db : DB) (secret_configured : Bool)
    (event : WebhookEvent) : DB × Except HTTPError Bool :=
  if !secret_configured then (db, .ok false)
  else
    match event with
    | .invalidPayload => (db, .error ⟨400, "Invalid payload"⟩)
    | .invalidSignature => (db, .error ⟨400, "Invalid signature"⟩)
    | .parsed event_type session_id =>
      if event_type == "checkout.session.completed" then
        match db.transactions.find? (fun t => t.session_id == session_id) with
        | none => (db, .ok true)
        | some transaction => (applyPaid db transaction, .ok true)
      else (db, .ok true)

/-- Python `set(xs) == set(ys)` on id lists: extensional equality of the
element sets. -/
def sameSet (xs ys : List Nat) : Bool :=
  xs.all (fun x => ys.contains x) && ys.all (fun y => xs.contains y)

/-- Python `sorted([a, b])`: the two ids in ascending order. -/
def sortedPair (a b : Nat) : List Nat :=
  if a ≤ b then [a, b] else [b, a]

/-- The find-or-create block of `send_message` (lines 1366-1399): filter the
conversations on `property_id` (the SQL where-clause; SQLAlchemy `== None` is
IS NULL, so the null scope only matches null rows), take the first whose
participant set equals the normalized pair (the Python loop with `break`),
create a fresh conversation when none matches, otherwise update its
`last_message` fields.  Returns the new store and the conversation id. -/
def resolveConversation (db : DB) (participants : List Nat)
    (property_id : Option Nat) (message : String) (conv_id : Nat)
    (now : Nat) : DB × Nat :=
  let potential := db.conversations.filter
    (fun c => c.property_id == property_id)
  match potential.find? (fun c => sameSet c.participants participants) with
  | none =>
    let new_conversation : Conversation :=
      { id := conv_id, participants := participants,
        property_id := property_id, last_message := message,
        last_message_at := now, created_at := now }
    ({ db with conversations := db.conversations ++ [new_conversation] },
     conv_id)
  | some conversation =>
    ({ db with conversations := db.conversations.map (fun c =>
        if c.id == conversation.id then
          { c with last_message := message, last_message_at := now }
        else c) },
     conversation.id)

/-- POST /api/messages (`send_message` in `server.py`): normalize the pair
with `sorted`, resolve the conversation, then insert the message row with
read=false.  The Socket.IO emit is fire-and-forget and touches no state.
Returns (message id, conversation id). -/
def send_message (db : DB) (message_data : MessageCreate) (user_id : Nat)
    (conv_id : Nat) (msg_id : Nat) (now : Nat) : DB × (Nat × Nat) :=
  let participants := sortedPair user_id message_data.receiver_id
  let resolved := resolveConversation db participants message_data.property_id
    message_data.message conv_id now
  let new_message : Message :=
    { id := msg_id, conversation_id := resolved.2, sender_id := user_id,
      receiver_id := message_data.receiver_id,
      message := message_data.message,
      attachment_url := message_data.attachment_url, read := false,
      created_at := now }
  ({ resolved.1 with messages := resolved.1.messages ++ [new_message] },
   (msg_id, resolved.2))

/-- GET /api/conversations/\x7bconversation_id\x7d/messages (`get_messages` in
`server.py`): select the conversation's messages ordered by `created_at`
ascending, limited to 100.  The authenticated user is received only through
the auth dependency; the handler performs no membership check on it. -/
def get_messages (db : DB) (conversation_id : Nat) (_user_id : Nat) :
    List Message :=
  ((db.messages.filter (fun m => m.conversation_id == conversation_id)
    ).mergeSort (fun a b => decide (a.created_at ≤ b.created_at))).take 100

/-- PUT /api/messages/\x7bmessage_id\x7d/read (`mark_message_read` in
`server.py`): receiver-only, sets read=true. -/
def mark_message_read (db : DB) (message_id : Nat) (user_id : Nat) :
    DB × Except HTTPError String :=
  match db.messages.find? (fun m => m.id == message_id) with
  | none => (db, .error ⟨404, "Message not found"⟩)
  | some message =>
    if message.receiver_id != user_id then
      (db, .error ⟨403, "Not authorized"⟩)
    else
      ({ db with messages := db.messages.map (fun m =>
          if m.id == message.id then { m with read := true } else m) },
       .ok "Message marked as read")

/-- One request against the store: every state-mutating endpoint of the core
(the read-only listing endpoints touch nothing). -/
inductive Op where
  | updateBookingStatus (booking_id : Nat) (status : String) (user_id : Nat)
      (user_role : String)
  | createBooking (property_id : Nat) (booking_date : Nat)
      (time_slot : String) (deposit_amount : Nat) (user_id : Nat)
      (booking_id : Nat) (now : Nat)
  | createCheckout (booking_id : Option Nat) (origin_url : Option String)
      (user_id : Nat) (api_key : Bool) (checkout_session : CheckoutSession)
      (txn_id : Nat) (now : Nat)
  | pollStatus (session_id : Nat) (api_key : Bool)
      (checkout_session : StripeSession)
  | webhook (secret_configured : Bool) (event : WebhookEvent)
  | sendMessage (message_data : MessageCreate) (user_id : Nat)
      (conv_id : Nat) (msg_id : Nat) (now : Nat)
  | markMessageRead (message_id : Nat) (user_id : Nat)
deriving DecidableEq, Repr

/-- The store reached after one request, whatever the response was. -/
def Op.step (db : DB) : Op → DB
  | .updateBookingStatus bid st uid role =>
    (update_booking_status db bid st uid role).1
  | .createBooking pid bd ts dep uid bid now =>
    (create_booking db pid bd ts dep uid bid now).1
  | .createCheckout bid origin uid key cs tid now =>
    (create_checkout db bid origin uid key cs tid now).1
  | .pollStatus sid key cs => (get_payment_status db sid key cs).1
  | .webhook secret ev => (stripe_webhook db secret ev).1
  | .sendMessage md uid cid mid now => (send_message db md uid cid mid now).1
  | .markMessageRead mid uid => (mark_message_read db mid uid).1

/-! ## Concrete stores used by counterexamples and witnesses -/

/-- A store with a single booking already in the terminal status confirmed
(booking 1, property 9, requester 3, owner 2, payment pending). -/
def terminalBookingDB : DB :=
  { properties := [],
    bookings := [⟨1, 9, 3, 2, 0, "10am", "confirmed", "pending", 50, 0⟩],
    transactions := [], conversations := [], messages := [] }

/-- A store with one conversation (id 5) between users 1 and 2 holding one
message (id 100).  User 3 is not a participant. -/
def msgDB : DB :=
  { properties := [], bookings := [], transactions := [],
    conversations := [⟨5, [1, 2], none, "hi", 10, 10⟩],
    messages := [⟨100, 5, 1, 2, "hi", none, false, 10⟩] }

/-! ## Theorems -/

/-- Python's `sorted` on a two-element list is symmetric in its arguments. -/
theorem sortedPair_comm (a b : Nat) : sortedPair a b = sortedPair b a := by
  unfold sortedPair
  rcases Nat.lt_trichotomy a b with h | h | h
  · have h1 : a ≤ b := Nat.le_of_lt h
    have h2 : ¬ b ≤ a := Nat.not_le.mpr h
    simp [h1, h2]
  · subst h
    simp
  · have h1 : b ≤ a := Nat.le_of_lt h
    have h2 : ¬ a ≤ b := Nat.not_le.mpr h
    simp [h1, h2]

/-- C9: with the webhook secret configured, an inbound notification whose
signature fails verification makes the handler raise the 400
Invalid-signature error, and the store is returned exactly as received: no
transaction or booking is touched.  Signature verification
(`stripe.Webhook.construct_event`) happens before any database access. -/
theorem c9_invalid_signature_fails_closed (db : DB) :
    stripe_webhook db true .invalidSignature =
      (db, .error ⟨400, "Invalid signature"⟩) := rfl

/-- C8 counterexample: user 3 is not a member of conversation 5's participant
set, yet `get_messages` returns the conversation's message to user 3 instead
of failing with Forbidden. -/
theorem c8_counterexample :
    (∀ c ∈ msgDB.conversations, 3 ∉ c.participants) ∧
    get_messages msgDB 5 3 = [⟨100, 5, 1, 2, "hi", none, false, 10⟩] := by
  refine ⟨by decide, ?_⟩
  simp [get_messages, msgDB]

/-- C8 amended: `get_messages` performs no membership check at all — the
authenticated actor is ignored, and the result is identical for every actor,
participant or not; the conversation's messages are returned to anyone. -/
theorem c8_amended (db : DB) (conversation_id u u' : Nat) :
    get_messages db conversation_id u = get_messages db conversation_id u' :=
  rfl

/-- C6: sending between A and B and sending between B and A (same property
scope, same store, same fresh ids) resolve to the same conversation id: the
participant pair is normalized with `sorted` and compared set-wise, so the
lookup-or-create is independent of sender/receiver order. -/
theorem c6_participant_order_independent (db : DB) (a b : Nat)
    (pid : Option Nat) (body : String) (att : Option String)
    (conv_id msg_id now : Nat) :
    (send_message db ⟨b, pid, body, att⟩ a conv_id msg_id now).2.2 =
      (send_message db ⟨a, pid, body, att⟩ b conv_id msg_id now).2.2 := by
  show (resolveConversation db (sortedPair a b) pid body conv_id now).2 =
    (resolveConversation db (sortedPair b a) pid body conv_id now).2
  rw [sortedPair_comm]

/-- C4 counterexample: booking 1 is already in the terminal status confirmed,
yet the owner's request to set it to cancelled succeeds (no InvalidTransition)
and the stored status changes to cancelled. -/
theorem c4_counterexample :
    terminalBookingDB.bookings.map Booking.status = ["confirmed"] ∧
    (update_booking_status terminalBookingDB 1 "cancelled" 2 "owner").2 =
      .ok "Booking cancelled" ∧
    (update_booking_status terminalBookingDB 1 "cancelled" 2
      "owner").1.bookings.map Booking.status = ["cancelled"] := by
  refine ⟨rfl, rfl, rfl⟩

/-! ## Branch equations for update_booking_status -/

/-- Unknown booking: 404 and no change. -/
theorem update_booking_status_eq_none (db : DB) (bid : Nat) (st : String)
    (uid : Nat) (role : String)
    (hfind : db.bookings.find? (fun x => x.id == bid) = none) :
    update_booking_status db bid st uid role =
      (db, .error ⟨404, "Booking not found"⟩) := by
  simp [update_booking_status, hfind]

/-- Actor neither the booking's owner nor an admin: 403 and no change. -/
theorem update_booking_status_eq_forbidden (db : DB) (bid : Nat) (st : String)
    (uid : Nat) (role : String) (b0 : Booking)
    (hfind : db.bookings.find? (fun x => x.id == bid) = some b0)
    (hauth : ¬ (b0.owner_id = uid ∨ role = "admin")) :
    update_booking_status db bid st uid role =
      (db, .error ⟨403, "Not authorized"⟩) := by
  push_neg at hauth
  have h1 : (b0.owner_id != uid && role != "admin") = true := by
    simp [bne_iff_ne]
    exact hauth
  simp [update_booking_status, hfind, h1]

/-- Requested status outside confirmed/rejected/cancelled: 400, no change. -/
theorem update_booking_status_eq_badstatus (db : DB) (bid : Nat) (st : String)
    (uid : Nat) (role : String) (b0 : Booking)
    (hfind : db.bookings.find? (fun x => x.id == bid) = some b0)
    (hauth : b0.owner_id = uid ∨ role = "admin")
    (hst : st ∉ ["confirmed", "rejected", "cancelled"]) :
    update_booking_status db bid st uid role =
      (db, .error ⟨400, "Invalid status"⟩) := by
  have h1 : (b0.owner_id != uid && role != "admin") = false := by
    rcases hauth with h | h <;> simp [h]
  have h2 : (["confirmed", "rejected", "cancelled"].contains st) = false := by
    cases hc : (["confirmed", "rejected", "cancelled"].contains st)
    · rfl
    · exact absurd (List.elem_iff.mp hc) hst
  unfold update_booking_status
  rw [hfind]
  simp only [h1, h2]
  simp

/-- Authorized actor, valid target status: the write happens, whatever the
booking's current status is. -/
theorem update_booking_status_eq_ok (db : DB) (bid : Nat) (st : String)
    (uid : Nat) (role : String) (b0 : Booking)
    (hfind : db.bookings.find? (fun x => x.id == bid) = some b0)
    (hauth : b0.owner_id = uid ∨ role = "admin")
    (hst : st ∈ ["confirmed", "rejected", "cancelled"]) :
    update_booking_status db bid st uid role =
      ({ db with bookings := db.bookings.map (fun x =>
          if x.id == b0.id then { x with status := st } else x) },
       .ok ("Booking " ++ st)) := by
  have h1 : (b0.owner_id != uid && role != "admin") = false := by
    rcases hauth with h | h <;> simp [h]
  have h2 : (["confirmed", "rejected", "cancelled"].contains st) = true :=
    List.elem_eq_true_of_mem hst
  unfold update_booking_status
  rw [hfind]
  simp only [h1, h2]
  simp

/-- C4 amended: `update_booking_status` never consults the booking's current
status, so there is no InvalidTransition failure: the requested status is
written if and only if the booking exists, the actor is its owner or an admin,
and the target status is one of confirmed/rejected/cancelled — also when the
current status is already terminal. -/
theorem c4_amended (db : DB) (bid : Nat) (st : String) (uid : Nat)
    (role : String) :
    ((∃ r, (update_booking_status db bid st uid role).2 = .ok r) ↔
      ∃ b, db.bookings.find? (fun x => x.id == bid) = some b ∧
        (b.owner_id = uid ∨ role = "admin") ∧
        st ∈ ["confirmed", "rejected", "cancelled"]) ∧
    (∀ b, db.bookings.find? (fun x => x.id == bid) = some b →
      (b.owner_id = uid ∨ role = "admin") →
      st ∈ ["confirmed", "rejected", "cancelled"] →
      (update_booking_status db bid st uid role).1 =
        { db with bookings := db.bookings.map (fun x =>
            if x.id == b.id then { x with status := st } else x) }) := by
  constructor
  · constructor
    · rintro ⟨r, hr⟩
      cases hfind : db.bookings.find? (fun x => x.id == bid) with
      | none =>
        rw [update_booking_status_eq_none db bid st uid role hfind] at hr
        simp at hr
      | some b0 =>
        by_cases hauth : b0.owner_id = uid ∨ role = "admin"
        · by_cases hst : st ∈ ["confirmed", "rejected", "cancelled"]
          · exact ⟨b0, rfl, hauth, hst⟩
          · rw [update_booking_status_eq_badstatus db bid st uid role b0
              hfind hauth hst] at hr
            simp at hr
        · rw [update_booking_status_eq_forbidden db bid st uid role b0
            hfind hauth] at hr
          simp at hr
    · rintro ⟨b, hb, hauth, hst⟩
      exact ⟨"Booking " ++ st,
        by rw [update_booking_status_eq_ok db bid st uid role b hb hauth hst]⟩
  · intro b hb hauth hst
    rw [update_booking_status_eq_ok db bid st uid role b hb hauth hst]

/-- Instance of c4_amended on the concrete store: the confirmed booking is
rewritten to rejected by its owner. -/
theorem c4_amended_witness :
    (update_booking_status terminalBookingDB 1 "rejected" 2 "owner").1 =
      { terminalBookingDB with bookings := terminalBookingDB.bookings.map (fun x =>
          if x.id == 1 then { x with status := "rejected" } else x) } :=
  (c4_amended terminalBookingDB 1 "rejected" 2 "owner").2
    ⟨1, 9, 3, 2, 0, "10am", "confirmed", "pending", 50, 0⟩ rfl (.inl rfl)
    (by decide)

/-- A store whose single booking (id 1, requester 3, owner 2) already has
payment_status paid. -/
def paidBookingDB : DB :=
  { properties := [],
    bookings := [⟨1, 9, 3, 2, 0, "10am", "confirmed", "paid", 50, 0⟩],
    transactions := [], conversations := [], messages := [] }

/-- C5 counterexample: booking 1 is already paid, yet `create_checkout` by
its requester succeeds (no InvalidState) and inserts a fresh pending
payment transaction for it. -/
theorem c5_counterexample :
    paidBookingDB.bookings.map Booking.payment_status = ["paid"] ∧
    (create_checkout paidBookingDB (some 1) (some "http://app") 3 true
      ⟨77, "https://pay/77"⟩ 500 42).2 = .ok ("https://pay/77", 77) ∧
    (create_checkout paidBookingDB (some 1) (some "http://app") 3 true
      ⟨77, "https://pay/77"⟩ 500 42).1.transactions.map
        PaymentTransaction.payment_status = ["pending"] := by
  refine ⟨rfl, rfl, rfl⟩

/-- C5 amended: `create_checkout` fails NotFound (404) for an absent booking
and Forbidden (403) when the payer is not the booking's requester, both
without touching the store; but it performs no payment-status check: for the
booking's requester it always creates a new pending transaction and returns
the session, even when the booking's payment_status is already paid. -/
theorem c5_amended (db : DB) (bid : Nat) (origin : String) (uid : Nat)
    (cs : CheckoutSession) (tid now : Nat) :
    (db.bookings.find? (fun b => b.id == bid) = none →
      create_checkout db (some bid) (some origin) uid true cs tid now =
        (db, .error ⟨404, "Booking not found"⟩)) ∧
    (∀ b, db.bookings.find? (fun b => b.id == bid) = some b →
      b.user_id ≠ uid →
      create_checkout db (some bid) (some origin) uid true cs tid now =
        (db, .error ⟨403, "Not authorized"⟩)) ∧
    (∀ b, db.bookings.find? (fun b => b.id == bid) = some b →
      b.user_id = uid →
      create_checkout db (some bid) (some origin) uid true cs tid now =
        ({ db with transactions := db.transactions ++
            [{ id := tid, session_id := cs.id, booking_id := bid,
               user_id := uid, amount := b.deposit_amount,
               currency := "usd", status := "pending",
               payment_status := "pending", created_at := now }] },
         .ok (cs.url, cs.id))) := by
  refine ⟨fun h => by simp [create_checkout, h], fun b hb hne => ?_,
    fun b hb heq => ?_⟩
  · have h1 : (b.user_id != uid) = true := by
      simpa [bne_iff_ne] using hne
    simp [create_checkout, hb, h1]
  · have h1 : (b.user_id != uid) = false := by
      simp [heq]
    simp [create_checkout, hb, h1, heq]

/-- Instance of c5_amended: the checkout on the already-paid booking goes
through and appends the pending transaction. -/
theorem c5_amended_witness :
    create_checkout paidBookingDB (some 1) (some "http://app") 3 true
      ⟨77, "https://pay/77"⟩ 500 42 =
      ({ paidBookingDB with transactions := paidBookingDB.transactions ++
          [{ id := 500, session_id := 77, booking_id := 1, user_id := 3,
             amount := 50, currency := "usd", status := "pending",
             payment_status := "pending", created_at := 42 }] },
       .ok ("https://pay/77", 77)) :=
  (c5_amended paidBookingDB 1 "http://app" 3 ⟨77, "https://pay/77"⟩
    500 42).2.2 ⟨1, 9, 3, 2, 0, "10am", "confirmed", "paid", 50, 0⟩ rfl rfl

/-- The transaction of session 77 with payment_status refunded (txn 500 for
booking 1, payer 3). -/
def refundedTxn : PaymentTransaction :=
  ⟨500, 77, 1, 3, 50, "usd", "pending", "refunded", 42⟩

/-- A store holding `refundedTxn` and its booking, both with payment_status
refunded. -/
def refundedDB : DB :=
  { properties := [],
    bookings := [⟨1, 9, 3, 2, 0, "10am", "pending", "refunded", 50, 0⟩],
    transactions := [refundedTxn], conversations := [], messages := [] }

/-- C1 counterexample: the stored transaction's payment_status is refunded —
not pending — yet both reconciliation paths set it to paid: the webhook
handler applies it unconditionally and the poll handler's guard only checks
the stored value is not paid. -/
theorem c1_counterexample :
    refundedDB.transactions.map PaymentTransaction.payment_status =
      ["refunded"] ∧
    (stripe_webhook refundedDB true
      (.parsed "checkout.session.completed" 77)).1.transactions.map
        PaymentTransaction.payment_status = ["paid"] ∧
    (get_payment_status refundedDB 77 true
      ⟨77, "paid", "complete"⟩).1.transactions.map
        PaymentTransaction.payment_status = ["paid"] := by
  refine ⟨rfl, rfl, rfl⟩

/-- C1 amended: the poll path changes a transaction's payment_status to paid
exactly when the provider reports paid and the stored value is not already
paid (the guard is "not paid", not "still pending"), and the webhook path
applies the paid update unconditionally to any existing transaction of a
completed session; hence a transaction stored as refunded is set to paid by
either path — only an already-paid value is left alone, and only on the poll
path. -/
theorem c1_amended (db : DB) (sid : Nat) (cs : StripeSession) :
    (cs.payment_status ≠ "paid" →
      (get_payment_status db sid true cs).1 = db) ∧
    (∀ t, db.transactions.find? (fun x => x.session_id == sid) = some t →
      t.payment_status = "paid" →
      (get_payment_status db sid true cs).1 = db) ∧
    (∀ t, db.transactions.find? (fun x => x.session_id == sid) = some t →
      t.payment_status ≠ "paid" → cs.payment_status = "paid" →
      (get_payment_status db sid true cs).1 = applyPaid db t) ∧
    (∀ t, db.transactions.find? (fun x => x.session_id == sid) = some t →
      (stripe_webhook db true
        (.parsed "checkout.session.completed" sid)).1 = applyPaid db t) := by
  refine ⟨fun hne => ?_, fun t ht hp => ?_, fun t ht hp hcs => ?_,
    fun t ht => ?_⟩
  · have h1 : (cs.payment_status == "paid") = false := by
      simpa using hne
    cases hf : db.transactions.find? (fun x => x.session_id == sid) with
    | none => simp [get_payment_status, hf]
    | some t => simp [get_payment_status, hf, h1]
  · have h1 : (t.payment_status != "paid") = false := by
      simp [hp]
    simp [get_payment_status, ht, h1]
  · have h1 : (t.payment_status != "paid") = true := by
      simpa [bne_iff_ne] using hp
    have h2 : (cs.payment_status == "paid") = true := by
      simpa using hcs
    simp [get_payment_status, ht, h1, h2]
  · simp [stripe_webhook, ht]

/-- Instance of c1_amended on the refunded store: the webhook path rewrites
the refunded transaction through `applyPaid`. -/
theorem c1_amended_witness :
    refundedDB.transactions.find? (fun x => x.session_id == 77) =
      some refundedTxn ∧
    (stripe_webhook refundedDB true
      (.parsed "checkout.session.completed" 77)).1 =
      applyPaid refundedDB refundedTxn :=
  ⟨rfl, (c1_amended refundedDB 77 ⟨77, "paid", "complete"⟩).2.2.2
    refundedTxn rfl⟩

/-! ## Equations for applyPaid and reconciliation helpers -/

/-- Two stores with equal tables are equal. -/
theorem DB_eq_of_fields (a b : DB) (h1 : a.properties = b.properties)
    (h2 : a.bookings = b.bookings) (h3 : a.transactions = b.transactions)
    (h4 : a.conversations = b.conversations)
    (h5 : a.messages = b.messages) : a = b := by
  cases a
  cases b
  simp_all

/-- The transactions table after the paid update. -/
theorem applyPaid_transactions (db : DB) (t : PaymentTransaction) :
    (applyPaid db t).transactions = db.transactions.map (fun x =>
      if x.id == t.id then
        { x with payment_status := "paid", status := "completed" }
      else x) := by
  simp only [applyPaid]
  split <;> rfl

/-- Properties are untouched by the paid update. -/
theorem applyPaid_properties (db : DB) (t : PaymentTransaction) :
    (applyPaid db t).properties = db.properties := by
  simp only [applyPaid]
  split <;> rfl

/-- Conversations are untouched by the paid update. -/
theorem applyPaid_conversations (db : DB) (t : PaymentTransaction) :
    (applyPaid db t).conversations = db.conversations := by
  simp only [applyPaid]
  split <;> rfl

/-- Messages are untouched by the paid update. -/
theorem applyPaid_messages (db : DB) (t : PaymentTransaction) :
    (applyPaid db t).messages = db.messages := by
  simp only [applyPaid]
  split <;> rfl

/-- With no booking matching the transaction, bookings are untouched. -/
theorem applyPaid_bookings_none (db : DB) (t : PaymentTransaction)
    (hfb : db.bookings.find? (fun x => x.id == t.booking_id) = none) :
    (applyPaid db t).bookings = db.bookings := by
  simp only [applyPaid]
  rw [show ({ db with transactions := db.transactions.map (fun x =>
      if x.id == t.id then
        { x with payment_status := "paid", status := "completed" }
      else x) } : DB).bookings = db.bookings from rfl, hfb]

/-- With a matching booking, the bookings table after the paid update. -/
theorem applyPaid_bookings_some (db : DB) (t : PaymentTransaction)
    (b : Booking)
    (hfb : db.bookings.find? (fun x => x.id == t.booking_id) = some b) :
    (applyPaid db t).bookings = db.bookings.map (fun x =>
      if x.id == b.id then { x with payment_status := "paid" } else x) := by
  simp only [applyPaid]
  rw [show ({ db with transactions := db.transactions.map (fun x =>
      if x.id == t.id then
        { x with payment_status := "paid", status := "completed" }
      else x) } : DB).bookings = db.bookings from rfl, hfb]

/-- Looking up the session after the paid update finds the transaction with
payment_status paid and status completed. -/
theorem applyPaid_find_session (db : DB) (t : PaymentTransaction) (sid : Nat)
    (hfind : db.transactions.find? (fun x => x.session_id == sid) = some t) :
    (applyPaid db t).transactions.find? (fun x => x.session_id == sid) =
      some { t with payment_status := "paid", status := "completed" } := by
  rw [applyPaid_transactions, List.find?_map]
  have hp : ((fun x : PaymentTransaction => x.session_id == sid) ∘ (fun x =>
      if x.id == t.id then
        { x with payment_status := "paid", status := "completed" }
      else x)) = (fun x : PaymentTransaction => x.session_id == sid) := by
    funext x
    by_cases h : x.id = t.id <;> simp [h]
  rw [hp, hfind]
  simp

/-- Looking up the transaction's booking after the paid update finds it with
payment_status paid. -/
theorem applyPaid_find_booking (db : DB) (t : PaymentTransaction)
    (b : Booking)
    (hfb : db.bookings.find? (fun x => x.id == t.booking_id) = some b) :
    (applyPaid db t).bookings.find? (fun x => x.id == t.booking_id) =
      some { b with payment_status := "paid" } := by
  rw [applyPaid_bookings_some db t b hfb, List.find?_map]
  have hp : ((fun x : Booking => x.id == t.booking_id) ∘ (fun x =>
      if x.id == b.id then { x with payment_status := "paid" } else x)) =
      (fun x : Booking => x.id == t.booking_id) := by
    funext x
    by_cases h : x.id = b.id <;> simp [h]
  rw [hp, hfb]
  simp

/-- When the transaction's row is already paid/completed wherever its id
occurs, and the row of its booking is already paid, the paid update rewrites
every field to the value it already has: the store is unchanged. -/
theorem applyPaid_noop (db : DB) (t : PaymentTransaction)
    (ht : ∀ x ∈ db.transactions, x.id = t.id →
      x.payment_status = "paid" ∧ x.status = "completed")
    (hbk : ∀ bk, db.bookings.find? (fun y => y.id == t.booking_id) = some bk →
      ∀ x ∈ db.bookings, x.id = bk.id → x.payment_status = "paid") :
    applyPaid db t = db := by
  have htr : (applyPaid db t).transactions = db.transactions := by
    rw [applyPaid_transactions]
    have hcongr : ∀ x ∈ db.transactions, (fun x : PaymentTransaction =>
        if x.id == t.id then
          { x with payment_status := "paid", status := "completed" }
        else x) x = id x := by
      intro x hx
      by_cases h : x.id == t.id
      · have hid : x.id = t.id := by simpa using h
        have hfields := ht x hx hid
        simp only [h, if_pos]
        cases x
        simp_all
      · simp [h]
    rw [List.map_congr_left hcongr, List.map_id]
  have hbo : (applyPaid db t).bookings = db.bookings := by
    cases hfb : db.bookings.find? (fun y => y.id == t.booking_id) with
    | none => exact applyPaid_bookings_none db t hfb
    | some bk =>
      rw [applyPaid_bookings_some db t bk hfb]
      have hcongr : ∀ x ∈ db.bookings, (fun x : Booking =>
          if x.id == bk.id then { x with payment_status := "paid" }
          else x) x = id x := by
        intro x hx
        by_cases h : x.id == bk.id
        · have hid : x.id = bk.id := by simpa using h
          have hfield := hbk bk hfb x hx hid
          simp only [h, if_pos]
          cases x
          simp_all
        · simp [h]
      rw [List.map_congr_left hcongr, List.map_id]
  exact DB_eq_of_fields _ _ (applyPaid_properties db t) hbo htr
    (applyPaid_conversations db t) (applyPaid_messages db t)

/-- The webhook path on a completed-checkout event for a known session is
exactly the paid update. -/
theorem stripe_webhook_completed (db : DB) (sid : Nat)
    (t : PaymentTransaction)
    (hfind : db.transactions.find? (fun x => x.session_id == sid) = some t) :
    (stripe_webhook db true (.parsed "checkout.session.completed" sid)).1 =
      applyPaid db t := by
  simp [stripe_webhook, hfind]

/-- The poll path, when the provider reports paid and the stored value is not
yet paid, is exactly the paid update. -/
theorem get_payment_status_applies (db : DB) (sid : Nat)
    (t : PaymentTransaction) (cs : StripeSession)
    (hfind : db.transactions.find? (fun x => x.session_id == sid) = some t)
    (hnp : t.payment_status ≠ "paid") (hcs : cs.payment_status = "paid") :
    (get_payment_status db sid true cs).1 = applyPaid db t := by
  have h1 : (t.payment_status != "paid") = true := by
    simpa [bne_iff_ne] using hnp
  have h2 : (cs.payment_status == "paid") = true := by
    simpa using hcs
  simp [get_payment_status, hfind, h1, h2]

/-- C2: reconciling the same session as paid twice is idempotent.  Starting
from a pending transaction for session `sid` with its booking present: the
first webhook delivery flips the transaction to paid/completed and the
booking to paid (the one pending-to-paid transition); a duplicate webhook
delivery leaves the store exactly as it was after the first; and the poll
path reporting paid produces exactly the same store as the webhook, so a poll
followed by a duplicate webhook also yields the single transition and the
statuses are never toggled back. -/
theorem c2_reconcile_idempotent (db : DB) (sid : Nat)
    (t : PaymentTransaction) (b : Booking)
    (hfind : db.transactions.find? (fun x => x.session_id == sid) = some t)
    (hpend : t.payment_status = "pending")
    (hb : db.bookings.find? (fun x => x.id == t.booking_id) = some b) :
    ((stripe_webhook db true
      (.parsed "checkout.session.completed" sid)).1.transactions.find?
        (fun x => x.session_id == sid) =
      some { t with payment_status := "paid", status := "completed" }) ∧
    ((stripe_webhook db true
      (.parsed "checkout.session.completed" sid)).1.bookings.find?
        (fun x => x.id == t.booking_id) =
      some { b with payment_status := "paid" }) ∧
    ((stripe_webhook (stripe_webhook db true
        (.parsed "checkout.session.completed" sid)).1 true
        (.parsed "checkout.session.completed" sid)).1 =
      (stripe_webhook db true
        (.parsed "checkout.session.completed" sid)).1) ∧
    ((get_payment_status db sid true ⟨sid, "paid", "complete"⟩).1 =
      (stripe_webhook db true
        (.parsed "checkout.session.completed" sid)).1) := by
  have h1 : (stripe_webhook db true
      (.parsed "checkout.session.completed" sid)).1 = applyPaid db t :=
    stripe_webhook_completed db sid t hfind
  have hfind1 : (applyPaid db t).transactions.find?
      (fun x => x.session_id == sid) =
      some { t with payment_status := "paid", status := "completed" } :=
    applyPaid_find_session db t sid hfind
  have hfb1 : (applyPaid db t).bookings.find?
      (fun x => x.id == t.booking_id) =
      some { b with payment_status := "paid" } :=
    applyPaid_find_booking db t b hb
  refine ⟨by rw [h1]; exact hfind1, by rw [h1]; exact hfb1, ?_, ?_⟩
  · rw [h1, stripe_webhook_completed (applyPaid db t) sid
      { t with payment_status := "paid", status := "completed" } hfind1]
    apply applyPaid_noop
    · intro x hx hid
      rw [applyPaid_transactions] at hx
      rcases List.mem_map.mp hx with ⟨y, hy, hxy⟩
      by_cases h : y.id = t.id
      · subst hxy
        simp [h]
      · rw [← hxy] at hid
        simp [h] at hid
    · intro bk hbk x hx hid
      rw [show ({ t with payment_status := "paid", status := "completed" } :
        PaymentTransaction).booking_id = t.booking_id from rfl] at hbk
      rw [hfb1] at hbk
      injection hbk with hbk
      rw [applyPaid_bookings_some db t b hb] at hx
      rcases List.mem_map.mp hx with ⟨y, hy, hxy⟩
      by_cases h : y.id = b.id
      · rw [← hxy]
        simp [h]
      · rw [← hxy] at hid
        rw [← hbk] at hid
        simp [h] at hid
  · rw [h1]
    exact get_payment_status_applies db sid t ⟨sid, "paid", "complete"⟩
      hfind (by rw [hpend]; decide) rfl

/-- The pending transaction of session 77 for booking 1. -/
def pendingTxn : PaymentTransaction :=
  ⟨500, 77, 1, 3, 50, "usd", "pending", "pending", 42⟩

/-- Booking 1, payment still pending. -/
def pendingBooking : Booking :=
  ⟨1, 9, 3, 2, 0, "10am", "confirmed", "pending", 50, 0⟩

/-- A store with the pending transaction and its booking. -/
def pendingDB : DB :=
  { properties := [], bookings := [pendingBooking],
    transactions := [pendingTxn], conversations := [], messages := [] }

/-- Instance of c2_reconcile_idempotent: the duplicate webhook on the
concrete pending store changes nothing. -/
theorem c2_witness :
    pendingDB.transactions.find? (fun x => x.session_id == 77) =
      some pendingTxn ∧
    (stripe_webhook (stripe_webhook pendingDB true
        (.parsed "checkout.session.completed" 77)).1 true
        (.parsed "checkout.session.completed" 77)).1 =
      (stripe_webhook pendingDB true
        (.parsed "checkout.session.completed" 77)).1 :=
  ⟨rfl, (c2_reconcile_idempotent pendingDB 77 pendingTxn pendingBooking
    rfl rfl rfl).2.2.1⟩

/-- C10: `get_messages` returns at most 100 messages — exactly
min 100 (number of the conversation's messages) — in ascending `created_at`
order, and every message of the conversation that is omitted has a
`created_at` no smaller than every returned one: only the 100 earliest are
returned, with no truncation indicator. -/
theorem c10_messages_truncated_to_100 (db : DB) (cid u : Nat) :
    (get_messages db cid u).length =
      min 100 (db.messages.filter
        (fun m => m.conversation_id == cid)).length ∧
    List.Pairwise (fun a b => a.created_at ≤ b.created_at)
      (get_messages db cid u) ∧
    (∀ m ∈ db.messages.filter (fun m => m.conversation_id == cid),
      m ∉ get_messages db cid u →
      ∀ m' ∈ get_messages db cid u, m'.created_at ≤ m.created_at) := by
  have htrans : ∀ a b c : Message,
      (decide (a.created_at ≤ b.created_at)) = true →
      (decide (b.created_at ≤ c.created_at)) = true →
      (decide (a.created_at ≤ c.created_at)) = true := by
    intro a b c hab hbc
    simp only [decide_eq_true_eq] at hab hbc ⊢
    omega
  have htot : ∀ a b : Message, ((decide (a.created_at ≤ b.created_at)) ||
      (decide (b.created_at ≤ a.created_at))) = true := by
    intro a b
    simp only [Bool.or_eq_true, decide_eq_true_eq]
    omega
  have hsorted := List.sorted_mergeSort htrans htot
    (db.messages.filter (fun m => m.conversation_id == cid))
  refine ⟨?_, ?_, ?_⟩
  · simp only [get_messages, List.length_take, List.length_mergeSort]
  · simp only [get_messages]
    have hp := List.Pairwise.sublist (List.take_sublist 100 _) hsorted
    exact hp.imp (fun h => by simpa using h)
  · intro m hm hnot m' hm'
    simp only [get_messages] at hnot hm'
    set s := (db.messages.filter (fun m => m.conversation_id == cid)).mergeSort
      (fun a b => decide (a.created_at ≤ b.created_at)) with hs
    have hmem : m ∈ s := ((List.mergeSort_perm _ _).mem_iff).mpr hm
    have hsplit : m ∈ s.take 100 ∨ m ∈ s.drop 100 := by
      rw [← List.take_append_drop 100 s] at hmem
      exact List.mem_append.mp hmem
    have hmdrop : m ∈ s.drop 100 := hsplit.resolve_left hnot
    have happ : List.Pairwise
        (fun a b : Message => decide (a.created_at ≤ b.created_at) = true)
        (s.take 100 ++ s.drop 100) := by
      rw [List.take_append_drop]
      exact hsorted
    have hpa := (List.pairwise_append.mp happ).2.2
    have hle := hpa m' hm' m hmdrop
    simpa using hle

/-- Instance of c10_messages_truncated_to_100 on the concrete store. -/
theorem c10_witness :
    (get_messages msgDB 5 1).length =
      min 100 (msgDB.messages.filter
        (fun m => m.conversation_id == 5)).length :=
  (c10_messages_truncated_to_100 msgDB 5 1).1

/-! ## Conversation-resolution lemmas -/

/-- Set equality is reflexive. -/
theorem sameSet_refl (xs : List Nat) : sameSet xs xs = true := by
  simp only [sameSet, Bool.and_eq_true, List.all_eq_true]
  constructor <;> intro x hx <;> exact List.elem_eq_true_of_mem hx

/-- The conversations table of a send is that of its resolution step. -/
theorem send_message_conversations (db : DB) (md : MessageCreate)
    (uid cid mid now : Nat) :
    (send_message db md uid cid mid now).1.conversations =
      (resolveConversation db (sortedPair uid md.receiver_id) md.property_id
        md.message cid now).1.conversations := rfl

/-- The conversation id returned by a send is that of its resolution step. -/
theorem send_message_conv_id (db : DB) (md : MessageCreate)
    (uid cid mid now : Nat) :
    (send_message db md uid cid mid now).2.2 =
      (resolveConversation db (sortedPair uid md.receiver_id) md.property_id
        md.message cid now).2 := rfl

/-- Resolution when the lookup finds a conversation: update its last-message
snapshot and return its id. -/
theorem resolveConversation_found (db : DB) (ps : List Nat)
    (pid : Option Nat) (m : String) (c now : Nat) (conv : Conversation)
    (hf : (db.conversations.filter (fun x => x.property_id == pid)).find?
      (fun x => sameSet x.participants ps) = some conv) :
    resolveConversation db ps pid m c now =
      ({ db with conversations := db.conversations.map (fun x =>
          if x.id == conv.id then
            { x with last_message := m, last_message_at := now } else x) },
       conv.id) := by
  simp [resolveConversation, hf]

/-- Resolution when the lookup finds nothing: append a fresh conversation
and return the fresh id. -/
theorem resolveConversation_created (db : DB) (ps : List Nat)
    (pid : Option Nat) (m : String) (c now : Nat)
    (hf : (db.conversations.filter (fun x => x.property_id == pid)).find?
      (fun x => sameSet x.participants ps) = none) :
    resolveConversation db ps pid m c now =
      ({ db with conversations := db.conversations ++
          [{ id := c, participants := ps, property_id := pid,
             last_message := m, last_message_at := now,
             created_at := now }] },
       c) := by
  simp [resolveConversation, hf]

/-- The last-message update leaves every conversation's property scope as it
was, so the scope filter commutes with it. -/
theorem filter_pid_comp (pid : Option Nat) (cid0 : Nat) (m : String)
    (now : Nat) :
    ((fun x : Conversation => x.property_id == pid) ∘ (fun x =>
      if x.id == cid0 then { x with last_message := m, last_message_at := now }
      else x)) = (fun x : Conversation => x.property_id == pid) := by
  funext x
  by_cases h : x.id = cid0 <;> simp [h]

/-- The last-message update leaves every participant set as it was, so the
set-equality search commutes with it. -/
theorem find_sameSet_comp (ps : List Nat) (cid0 : Nat) (m : String)
    (now : Nat) :
    ((fun x : Conversation => sameSet x.participants ps) ∘ (fun x =>
      if x.id == cid0 then { x with last_message := m, last_message_at := now }
      else x)) = (fun x : Conversation => sameSet x.participants ps) := by
  funext x
  by_cases h : x.id = cid0 <;> simp [h]

/-- The last-message update leaves every conversation id as it was. -/
theorem map_update_ids (l : List Conversation) (cid0 : Nat) (m : String)
    (now : Nat) :
    (l.map (fun x =>
      if x.id == cid0 then { x with last_message := m, last_message_at := now }
      else x)).map Conversation.id = l.map Conversation.id := by
  rw [List.map_map]
  apply List.map_congr_left
  intro x _
  by_cases h : x.id = cid0 <;> simp [Function.comp, h]

/-- The resolved conversation is in the resulting table, carries the returned
id, and sits in exactly the requested property scope. -/
theorem resolveConversation_mem (db : DB) (ps : List Nat) (pid : Option Nat)
    (m : String) (c now : Nat) :
    ∃ conv ∈ (resolveConversation db ps pid m c now).1.conversations,
      conv.id = (resolveConversation db ps pid m c now).2 ∧
      conv.property_id = pid := by
  cases hf : (db.conversations.filter (fun x => x.property_id == pid)).find?
      (fun x => sameSet x.participants ps) with
  | none =>
    rw [resolveConversation_created db ps pid m c now hf]
    exact ⟨_, List.mem_append_right _ (List.mem_singleton_self _), rfl, rfl⟩
  | some conv =>
    rw [resolveConversation_found db ps pid m c now conv hf]
    have hmemf := List.mem_of_find?_eq_some hf
    have hmem : conv ∈ db.conversations := (List.mem_filter.mp hmemf).1
    have hpid : conv.property_id = pid := by
      have := (List.mem_filter.mp hmemf).2
      simpa using this
    refine ⟨(fun x => if x.id == conv.id then
        { x with last_message := m, last_message_at := now } else x) conv,
      List.mem_map_of_mem _ hmem, ?_, ?_⟩
    · simp
    · simpa using hpid

/-- Every conversation survives a resolution with its id and scope intact. -/
theorem resolveConversation_preserves (db : DB) (ps : List Nat)
    (pid : Option Nat) (m : String) (c now : Nat) (conv : Conversation)
    (hmem : conv ∈ db.conversations) :
    ∃ conv' ∈ (resolveConversation db ps pid m c now).1.conversations,
      conv'.id = conv.id ∧ conv'.property_id = conv.property_id := by
  cases hf : (db.conversations.filter (fun x => x.property_id == pid)).find?
      (fun x => sameSet x.participants ps) with
  | none =>
    rw [resolveConversation_created db ps pid m c now hf]
    exact ⟨conv, List.mem_append_left _ hmem, rfl, rfl⟩
  | some cv =>
    rw [resolveConversation_found db ps pid m c now cv hf]
    refine ⟨(fun x => if x.id == cv.id then
        { x with last_message := m, last_message_at := now } else x) conv,
      List.mem_map_of_mem _ hmem, ?_, ?_⟩
    · by_cases h : conv.id = cv.id <;> simp [h]
    · by_cases h : conv.id = cv.id <;> simp [h]

/-- Resolution with a fresh id keeps conversation ids duplicate-free. -/
theorem resolveConversation_ids_nodup (db : DB) (ps : List Nat)
    (pid : Option Nat) (m : String) (c now : Nat)
    (hnd : (db.conversations.map Conversation.id).Nodup)
    (hfresh : c ∉ db.conversations.map Conversation.id) :
    ((resolveConversation db ps pid m c now).1.conversations.map
      Conversation.id).Nodup := by
  cases hf : (db.conversations.filter (fun x => x.property_id == pid)).find?
      (fun x => sameSet x.participants ps) with
  | none =>
    rw [resolveConversation_created db ps pid m c now hf]
    rw [List.map_append, List.nodup_append]
    refine ⟨hnd, List.nodup_singleton _, ?_⟩
    intro x hx hx'
    simp only [List.map_cons, List.map_nil, List.mem_singleton] at hx'
    subst hx'
    exact hfresh hx
  | some cv =>
    rw [resolveConversation_found db ps pid m c now cv hf]
    rw [map_update_ids]
    exact hnd

/-- Resolution adds no conversation id other than the fresh one. -/
theorem resolveConversation_ids_sub (db : DB) (ps : List Nat)
    (pid : Option Nat) (m : String) (c now : Nat) (x : Nat)
    (hx : x ∈ (resolveConversation db ps pid m c now).1.conversations.map
      Conversation.id) :
    x ∈ db.conversations.map Conversation.id ∨ x = c := by
  cases hf : (db.conversations.filter (fun x => x.property_id == pid)).find?
      (fun x => sameSet x.participants ps) with
  | none =>
    rw [resolveConversation_created db ps pid m c now hf] at hx
    rw [List.map_append] at hx
    rcases List.mem_append.mp hx with h | h
    · exact .inl h
    · simp only [List.map_cons, List.map_nil, List.mem_singleton] at h
      exact .inr h
  | some cv =>
    rw [resolveConversation_found db ps pid m c now cv hf] at hx
    rw [map_update_ids] at hx
    exact .inl hx

/-- Resolving the same key again after one resolution finds the previously
resolved conversation instead of creating another: same id, no growth. -/
theorem resolve_again_reuses (db : DB) (ps : List Nat) (pid : Option Nat)
    (m1 m3 : String) (c1 c3 t1 t3 : Nat) (db1 : DB)
    (h1 : db1.conversations =
      (resolveConversation db ps pid m1 c1 t1).1.conversations) :
    (resolveConversation db1 ps pid m3 c3 t3).2 =
      (resolveConversation db ps pid m1 c1 t1).2 ∧
    (resolveConversation db1 ps pid m3 c3 t3).1.conversations.length =
      db1.conversations.length := by
  cases hf : (db.conversations.filter (fun x => x.property_id == pid)).find?
      (fun x => sameSet x.participants ps) with
  | some cv =>
    rw [resolveConversation_found db ps pid m1 c1 t1 cv hf] at h1
    have hf2 : (db1.conversations.filter
        (fun x => x.property_id == pid)).find?
        (fun x => sameSet x.participants ps) =
        some ((fun x => if x.id == cv.id then
          { x with last_message := m1, last_message_at := t1 } else x) cv) := by
      rw [h1]
      show ((db.conversations.map (fun x => if x.id == cv.id then
        { x with last_message := m1, last_message_at := t1 } else x)).filter
          (fun x => x.property_id == pid)).find?
          (fun x => sameSet x.participants ps) = _
      rw [List.filter_map, filter_pid_comp, List.find?_map, find_sameSet_comp,
        hf]
      rfl
    rw [resolveConversation_found db1 ps pid m3 c3 t3 _ hf2,
      resolveConversation_found db ps pid m1 c1 t1 cv hf]
    constructor
    · simp
    · simp
  | none =>
    rw [resolveConversation_created db ps pid m1 c1 t1 hf] at h1
    have hf2 : (db1.conversations.filter
        (fun x => x.property_id == pid)).find?
        (fun x => sameSet x.participants ps) =
        some { id := c1, participants := ps, property_id := pid,
               last_message := m1, last_message_at := t1,
               created_at := t1 } := by
      rw [h1, List.filter_append, List.find?_append, hf]
      simp [sameSet_refl]
    rw [resolveConversation_found db1 ps pid m3 c3 t3 _ hf2,
      resolveConversation_created db ps pid m1 c1 t1 hf]
    constructor
    · rfl
    · simp

/-- Resolving two different property scopes in sequence yields two different
conversation ids, given duplicate-free ids and fresh, distinct new ids. -/
theorem resolve_scopes_distinct (db : DB) (ps1 ps2 : List Nat)
    (pid1 pid2 : Option Nat) (hne : pid1 ≠ pid2) (m1 m2 : String)
    (c1 c2 t1 t2 : Nat)
    (hnd : (db.conversations.map Conversation.id).Nodup)
    (hc1 : c1 ∉ db.conversations.map Conversation.id)
    (hc2 : c2 ∉ db.conversations.map Conversation.id) (hc12 : c1 ≠ c2)
    (db1 : DB)
    (h1 : db1.conversations =
      (resolveConversation db ps1 pid1 m1 c1 t1).1.conversations) :
    (resolveConversation db ps1 pid1 m1 c1 t1).2 ≠
      (resolveConversation db1 ps2 pid2 m2 c2 t2).2 := by
  intro heq
  obtain ⟨conv1, hmem1, hid1, hpid1⟩ :=
    resolveConversation_mem db ps1 pid1 m1 c1 t1
  rw [← h1] at hmem1
  obtain ⟨conv1', hmem1', hid1', hpid1'⟩ :=
    resolveConversation_preserves db1 ps2 pid2 m2 c2 t2 conv1 hmem1
  obtain ⟨conv2, hmem2, hid2, hpid2⟩ :=
    resolveConversation_mem db1 ps2 pid2 m2 c2 t2
  have hnd1 : (db1.conversations.map Conversation.id).Nodup := by
    rw [h1]
    exact resolveConversation_ids_nodup db ps1 pid1 m1 c1 t1 hnd hc1
  have hc2' : c2 ∉ db1.conversations.map Conversation.id := by
    rw [h1]
    intro hx
    rcases resolveConversation_ids_sub db ps1 pid1 m1 c1 t1 c2 hx with h | h
    · exact hc2 h
    · exact hc12 h.symm
  have hnd2 : ((resolveConversation db1 ps2 pid2 m2 c2
      t2).1.conversations.map Conversation.id).Nodup :=
    resolveConversation_ids_nodup db1 ps2 pid2 m2 c2 t2 hnd1 hc2'
  have hideq : conv1'.id = conv2.id := by
    rw [hid1', hid1, heq, hid2]
  have heqc : conv1' = conv2 :=
    List.inj_on_of_nodup_map hnd2 hmem1' hmem2 hideq
  apply hne
  rw [← hpid1, ← hpid1', heqc]
  exact hpid2

/-- C7: with duplicate-free conversation ids and fresh distinct new ids, a
send in the null property scope and a send in the scope of property `p`
resolve to two different conversations; and a repeated send in the same
scope (null included) reuses the existing conversation — same conversation
id, no new conversation row. -/
theorem c7_scope_separation_and_reuse (db : DB) (a b p : Nat)
    (m1 m2 m3 : String) (att : Option String)
    (c1 c2 c3 mi1 mi2 mi3 t1 t2 t3 : Nat)
    (hnd : (db.conversations.map Conversation.id).Nodup)
    (hc1 : c1 ∉ db.conversations.map Conversation.id)
    (hc2 : c2 ∉ db.conversations.map Conversation.id)
    (hc12 : c1 ≠ c2) :
    ((send_message db ⟨b, none, m1, att⟩ a c1 mi1 t1).2.2 ≠
      (send_message (send_message db ⟨b, none, m1, att⟩ a c1 mi1 t1).1
        ⟨b, some p, m2, att⟩ a c2 mi2 t2).2.2) ∧
    (∀ pid : Option Nat,
      (send_message (send_message db ⟨b, pid, m1, att⟩ a c1 mi1 t1).1
          ⟨b, pid, m3, att⟩ a c3 mi3 t3).2.2 =
        (send_message db ⟨b, pid, m1, att⟩ a c1 mi1 t1).2.2 ∧
      (send_message (send_message db ⟨b, pid, m1, att⟩ a c1 mi1 t1).1
          ⟨b, pid, m3, att⟩ a c3 mi3 t3).1.conversations.length =
        (send_message db ⟨b, pid, m1, att⟩ a c1 mi1
          t1).1.conversations.length) := by
  constructor
  · exact resolve_scopes_distinct db (sortedPair a b) (sortedPair a b) none
      (some p) (by simp) m1 m2 c1 c2 t1 t2 hnd hc1 hc2 hc12
      (send_message db ⟨b, none, m1, att⟩ a c1 mi1 t1).1 rfl
  · intro pid
    exact resolve_again_reuses db (sortedPair a b) pid m1 m3 c1 c3 t1 t3
      (send_message db ⟨b, pid, m1, att⟩ a c1 mi1 t1).1 rfl

/-- The empty store. -/
def emptyDB : DB :=
  { properties := [], bookings := [], transactions := [],
    conversations := [], messages := [] }

/-- Instance of c7_scope_separation_and_reuse on the empty store: the
null-scoped and property-5-scoped conversations between users 1 and 2 have
different ids. -/
theorem c7_witness :
    (send_message emptyDB ⟨2, none, "hello", none⟩ 1 10 20 30).2.2 ≠
      (send_message (send_message emptyDB ⟨2, none, "hello", none⟩
          1 10 20 30).1 ⟨2, some 5, "again", none⟩ 1 11 21 31).2.2 :=
  (c7_scope_separation_and_reuse emptyDB 1 2 5 "hello" "again" "third" none
    10 11 12 20 21 22 30 31 32 (by decide) (by decide) (by decide)
    (by decide)).1

/-! ## Per-operation table shapes, for the stickiness invariant -/

/-- The booking-status endpoint never touches transactions. -/
theorem update_booking_status_transactions (db : DB) (bid : Nat)
    (st : String) (uid : Nat) (role : String) :
    (update_booking_status db bid st uid role).1.transactions =
      db.transactions := by
  unfold update_booking_status
  split
  · rfl
  · split
    · rfl
    · split
      · rfl
      · rfl

/-- The booking-status endpoint leaves bookings alone or maps a pure
status-field update over them. -/
theorem update_booking_status_bookings (db : DB) (bid : Nat) (st : String)
    (uid : Nat) (role : String) :
    (update_booking_status db bid st uid role).1.bookings = db.bookings ∨
    ∃ b0 : Booking, (update_booking_status db bid st uid role).1.bookings =
      db.bookings.map (fun x =>
        if x.id == b0.id then { x with status := st } else x) := by
  unfold update_booking_status
  split
  · exact .inl rfl
  · rename_i booking _
    split
    · exact .inl rfl
    · split
      · exact .inl rfl
      · exact .inr ⟨booking, rfl⟩

/-- Booking creation never touches transactions. -/
theorem create_booking_transactions (db : DB) (pid bd : Nat) (ts : String)
    (dep uid bid now : Nat) :
    (create_booking db pid bd ts dep uid bid now).1.transactions =
      db.transactions := by
  unfold create_booking
  split
  · rfl
  · rfl

/-- Booking creation leaves bookings alone or appends one new booking. -/
theorem create_booking_bookings (db : DB) (pid bd : Nat) (ts : String)
    (dep uid bid now : Nat) :
    (create_booking db pid bd ts dep uid bid now).1.bookings =
      db.bookings ∨
    ∃ nb, (create_booking db pid bd ts dep uid bid now).1.bookings =
      db.bookings ++ [nb] := by
  unfold create_booking
  split
  · exact .inl rfl
  · exact .inr ⟨_, rfl⟩

/-- Checkout creation never touches bookings. -/
theorem create_checkout_bookings (db : DB) (bid : Option Nat)
    (origin : Option String) (uid : Nat) (key : Bool)
    (cs : CheckoutSession) (tid now : Nat) :
    (create_checkout db bid origin uid key cs tid now).1.bookings =
      db.bookings := by
  unfold create_checkout
  split
  · split
    · rfl
    · split
      · rfl
      · split
        · rfl
        · rfl
  · rfl

/-- Checkout creation leaves transactions alone or appends one new pending
transaction. -/
theorem create_checkout_transactions (db : DB) (bid : Option Nat)
    (origin : Option String) (uid : Nat) (key : Bool)
    (cs : CheckoutSession) (tid now : Nat) :
    (create_checkout db bid origin uid key cs tid now).1.transactions =
      db.transactions ∨
    ∃ nt, (create_checkout db bid origin uid key cs tid now).1.transactions =
      db.transactions ++ [nt] := by
  unfold create_checkout
  split
  · split
    · exact .inl rfl
    · split
      · exact .inl rfl
      · split
        · exact .inl rfl
        · exact .inr ⟨_, rfl⟩
  · exact .inl rfl

/-- The poll handler either leaves the store alone or performs the paid
update for the found transaction. -/
theorem get_payment_status_cases (db : DB) (sid : Nat) (key : Bool)
    (cs : StripeSession) :
    (get_payment_status db sid key cs).1 = db ∨
    ∃ t, (get_payment_status db sid key cs).1 = applyPaid db t := by
  unfold get_payment_status
  split
  · exact .inl rfl
  · dsimp only
    split
    · exact .inl rfl
    · split
      · split
        · exact .inr ⟨_, rfl⟩
        · exact .inl rfl
      · split
        · exact .inr ⟨_, rfl⟩
        · exact .inl rfl

/-- The webhook handler either leaves the store alone or performs the paid
update for the found transaction. -/
theorem stripe_webhook_cases (db : DB) (secret : Bool) (ev : WebhookEvent) :
    (stripe_webhook db secret ev).1 = db ∨
    ∃ t, (stripe_webhook db secret ev).1 = applyPaid db t := by
  unfold stripe_webhook
  split
  · exact .inl rfl
  · split
    · exact .inl rfl
    · exact .inl rfl
    · split
      · split
        · exact .inl rfl
        · exact .inr ⟨_, rfl⟩
      · exact .inl rfl

/-- Sending a message never touches transactions. -/
theorem send_message_transactions (db : DB) (md : MessageCreate)
    (uid cid mid now : Nat) :
    (send_message db md uid cid mid now).1.transactions =
      db.transactions := by
  show (resolveConversation db (sortedPair uid md.receiver_id)
    md.property_id md.message cid now).1.transactions = db.transactions
  unfold resolveConversation
  dsimp only
  split
  · rfl
  · rfl

/-- Sending a message never touches bookings. -/
theorem send_message_bookings (db : DB) (md : MessageCreate)
    (uid cid mid now : Nat) :
    (send_message db md uid cid mid now).1.bookings = db.bookings := by
  show (resolveConversation db (sortedPair uid md.receiver_id)
    md.property_id md.message cid now).1.bookings = db.bookings
  unfold resolveConversation
  dsimp only
  split
  · rfl
  · rfl

/-- Marking a message read never touches transactions. -/
theorem mark_message_read_transactions (db : DB) (mid uid : Nat) :
    (mark_message_read db mid uid).1.transactions = db.transactions := by
  unfold mark_message_read
  split
  · rfl
  · split
    · rfl
    · rfl

/-- Marking a message read never touches bookings. -/
theorem mark_message_read_bookings (db : DB) (mid uid : Nat) :
    (mark_message_read db mid uid).1.bookings = db.bookings := by
  unfold mark_message_read
  split
  · rfl
  · split
    · rfl
    · rfl

/-- A paid transaction row stays paid through the paid update. -/
theorem applyPaid_sticky_txn (db : DB) (t : PaymentTransaction) (n : Nat)
    (hn : n < db.transactions.length)
    (hn' : n < (applyPaid db t).transactions.length)
    (h : (db.transactions[n]).payment_status = "paid") :
    ((applyPaid db t).transactions[n]).payment_status = "paid" := by
  simp only [applyPaid_transactions, List.getElem_map]
  by_cases hx : (db.transactions[n]).id = t.id
  · simp [hx]
  · simp [hx, h]

/-- A paid booking row stays paid through the paid update. -/
theorem applyPaid_sticky_booking (db : DB) (t : PaymentTransaction) (n : Nat)
    (hn : n < db.bookings.length)
    (hn' : n < (applyPaid db t).bookings.length)
    (h : (db.bookings[n]).payment_status = "paid") :
    ((applyPaid db t).bookings[n]).payment_status = "paid" := by
  cases hfb : db.bookings.find? (fun x => x.id == t.booking_id) with
  | none =>
    simp only [applyPaid_bookings_none db t hfb]
    exact h
  | some b =>
    simp only [applyPaid_bookings_some db t b hfb, List.getElem_map]
    by_cases hx : (db.bookings[n]).id = b.id
    · simp [hx]
    · simp [hx, h]

/-- C3: paid is sticky.  Across every state-mutating endpoint of the core —
the booking-status update, booking creation, checkout creation, the poll
path (including one reporting not-paid), the webhook path (including
duplicates), message send and mark-read — a transaction row or booking row
whose payment_status is paid still has payment_status paid afterwards; in
particular it is never reverted to pending. -/
theorem c3_paid_sticky (db : DB) (op : Op) :
    (∀ n (hn : n < db.transactions.length)
        (hn' : n < (Op.step db op).transactions.length),
      (db.transactions[n]).payment_status = "paid" →
      ((Op.step db op).transactions[n]).payment_status = "paid") ∧
    (∀ n (hn : n < db.bookings.length)
        (hn' : n < (Op.step db op).bookings.length),
      (db.bookings[n]).payment_status = "paid" →
      ((Op.step db op).bookings[n]).payment_status = "paid") := by
  cases op with
  | updateBookingStatus bid st uid role =>
    constructor
    · intro n hn hn' h
      simp only [Op.step, update_booking_status_transactions] at hn' ⊢
      exact h
    · intro n hn hn' h
      simp only [Op.step] at hn' ⊢
      rcases update_booking_status_bookings db bid st uid role with
        heq | ⟨b0, heq⟩
      · simp only [heq] at hn' ⊢
        exact h
      · simp only [heq, List.getElem_map] at hn' ⊢
        by_cases hx : (db.bookings[n]).id = b0.id <;> simp [hx, h]
  | createBooking pid bd ts dep uid bid now =>
    constructor
    · intro n hn hn' h
      simp only [Op.step, create_booking_transactions] at hn' ⊢
      exact h
    · intro n hn hn' h
      simp only [Op.step] at hn' ⊢
      rcases create_booking_bookings db pid bd ts dep uid bid now with
        heq | ⟨nb, heq⟩
      · simp only [heq] at hn' ⊢
        exact h
      · simp only [heq] at hn' ⊢
        rw [List.getElem_append_left hn]
        exact h
  | createCheckout bid origin uid key cs tid now =>
    constructor
    · intro n hn hn' h
      simp only [Op.step] at hn' ⊢
      rcases create_checkout_transactions db bid origin uid key cs tid now
        with heq | ⟨nt, heq⟩
      · simp only [heq] at hn' ⊢
        exact h
      · simp only [heq] at hn' ⊢
        rw [List.getElem_append_left hn]
        exact h
    · intro n hn hn' h
      simp only [Op.step, create_checkout_bookings] at hn' ⊢
      exact h
  | pollStatus sid key cs =>
    rcases get_payment_status_cases db sid key cs with heq | ⟨t, heq⟩
    · constructor <;> intro n hn hn' h <;>
        simp only [Op.step, heq] at hn' ⊢ <;> exact h
    · constructor
      · intro n hn hn' h
        simp only [Op.step, heq] at hn' ⊢
        exact applyPaid_sticky_txn db t n hn hn' h
      · intro n hn hn' h
        simp only [Op.step, heq] at hn' ⊢
        exact applyPaid_sticky_booking db t n hn hn' h
  | webhook secret ev =>
    rcases stripe_webhook_cases db secret ev with heq | ⟨t, heq⟩
    · constructor <;> intro n hn hn' h <;>
        simp only [Op.step, heq] at hn' ⊢ <;> exact h
    · constructor
      · intro n hn hn' h
        simp only [Op.step, heq] at hn' ⊢
        exact applyPaid_sticky_txn db t n hn hn' h
      · intro n hn hn' h
        simp only [Op.step, heq] at hn' ⊢
        exact applyPaid_sticky_booking db t n hn hn' h
  | sendMessage md uid cid mid now =>
    constructor
    · intro n hn hn' h
      simp only [Op.step, send_message_transactions] at hn' ⊢
      exact h
    · intro n hn hn' h
      simp only [Op.step, send_message_bookings] at hn' ⊢
      exact h
  | markMessageRead mid uid =>
    constructor
    · intro n hn hn' h
      simp only [Op.step, mark_message_read_transactions] at hn' ⊢
      exact h
    · intro n hn hn' h
      simp only [Op.step, mark_message_read_bookings] at hn' ⊢
      exact h

/-- A store whose transaction and booking are already paid. -/
def paidDB : DB :=
  { properties := [],
    bookings := [⟨1, 9, 3, 2, 0, "10am", "confirmed", "paid", 50, 0⟩],
    transactions := [⟨500, 77, 1, 3, 50, "usd", "completed", "paid", 42⟩],
    conversations := [], messages := [] }

/-- A stale poll: the provider still reports session 77 unpaid. -/
def stalePoll : Op := .pollStatus 77 true ⟨77, "unpaid", "open"⟩

/-- The store still has its transaction after the stale poll. -/
theorem stalePoll_len :
    0 < (Op.step paidDB stalePoll).transactions.length := by decide

/-- Instance of c3_paid_sticky: a stale not-paid poll does not revert the
paid transaction. -/
theorem c3_witness :
    ((Op.step paidDB stalePoll).transactions.get
      ⟨0, stalePoll_len⟩).payment_status = "paid" :=
  (c3_paid_sticky paidDB stalePoll).1 0 (by decide) stalePoll_len rfl
